import Mathlib

/-!
Shallow embedding of the schema-change engine header
(be/src/olap/schema_change.h) of the doris repository, together with
theorems settling the row-accounting, strategy-selection and
concurrency-admission properties stated about it.

Machine integers: the row counters in the source are C++ `uint64_t`
(`_filtered_rows`, `_merged_rows`, the reader/writer accessors); their
arithmetic is modelled on `Nat` with explicit reduction modulo `2 ^ 64`.
-/

namespace doris

/-- `2 ^ 64`, the modulus of C++ `uint64_t` arithmetic. -/
def U64 : Nat := 18446744073709551616

/-- C++ `uint64_t` addition: `(a + b) mod 2 ^ 64`. -/
def add64 (a b : Nat) : Nat := (a + b) % U64

/-- C++ `uint64_t` subtraction: `(a - b) mod 2 ^ 64`, wrapping when `b > a`. -/
def sub64 (a b : Nat) : Nat := (a % U64 + (U64 - b % U64)) % U64

/-- Error codes of `common/status.h` used by `schema_change.h`. -/
inductive ErrorCode where
  | ALTER_STATUS_ERR
  | NOT_SUPPORTED
  | TRY_LOCK_FAILED
  deriving DecidableEq, Repr

/-- `doris::Status`: OK or an error with a code and a message. -/
inductive Status where
  | OK
  | Error (code : ErrorCode) (msg : String)
  deriving DecidableEq, Repr

/-- `TExpr`: opaque external expression handle (only compared to `nullptr`). -/
structure TExpr where
  deriving DecidableEq, Repr

/-- `BlockChanger` state relevant to the claims: the optional `_where_expr`
(a null pointer is `none`) and the `_fe_compatible_version` stamp. -/
structure BlockChanger where
  where_expr : Option TExpr
  fe_compatible_version : Int := -1
  deriving DecidableEq, Repr

/-- `BlockChanger::has_where`: `_where_expr != nullptr`. -/
def BlockChanger.has_where (c : BlockChanger) : Bool := c.where_expr.isSome

/-- Observable state of a `RowsetReaderSharedPtr` used by
`SchemaChange::process` and `_check_row_nums`: `rowset()->empty()`,
`rowset()->num_rows()` and `filtered_rows()`. -/
structure RowsetReaderState where
  rowset_empty : Bool
  rowset_num_rows : Nat
  filtered_rows : Nat
  deriving DecidableEq, Repr

/-- Observable state of a `RowsetWriter`:
`num_rows()` and `num_rows_filtered()`. -/
structure RowsetWriterState where
  num_rows : Nat
  num_rows_filtered : Nat
  deriving DecidableEq, Repr

/-- The two private counters of `SchemaChange`:
`uint64_t _filtered_rows {}` and `uint64_t _merged_rows {}`. -/
structure SCState where
  filtered_rows : Nat
  merged_rows : Nat
  deriving DecidableEq, Repr

/-- `SchemaChange::filtered_rows()` accessor. -/
def SchemaChange.filtered_rows (st : SCState) : Nat := st.filtered_rows

/-- `SchemaChange::merged_rows()` accessor. -/
def SchemaChange.merged_rows (st : SCState) : Nat := st.merged_rows

/-- `SchemaChange::_check_row_nums` (the base-class check):
`reader->rowset()->num_rows() - reader->filtered_rows() !=
 writer.num_rows() + writer.num_rows_filtered() + _merged_rows + _filtered_rows`
returns `false`; otherwise `true`.  All operands are promoted to
`uint64_t`, so both sides reduce modulo `2 ^ 64`. -/
def SchemaChange.check_row_nums_base (st : SCState) (r : RowsetReaderState)
    (w : RowsetWriterState) : Bool :=
  sub64 r.rowset_num_rows r.filtered_rows ==
    add64 (add64 (add64 w.num_rows w.num_rows_filtered) st.merged_rows) st.filtered_rows

/-- `VSchemaChangeDirectly::_check_row_nums`:
`_changer.has_where() || SchemaChange::_check_row_nums(reader, writer)`. -/
def VSchemaChangeDirectly.check_row_nums (changer : BlockChanger) (st : SCState)
    (r : RowsetReaderState) (w : RowsetWriterState) : Bool :=
  changer.has_where || SchemaChange.check_row_nums_base st r w

/-- `VBaseSchemaChangeWithSorting::_check_row_nums`:
`_changer.has_where() || SchemaChange::_check_row_nums(reader, writer)`. -/
def VBaseSchemaChangeWithSorting.check_row_nums (changer : BlockChanger) (st : SCState)
    (r : RowsetReaderState) (w : RowsetWriterState) : Bool :=
  changer.has_where || SchemaChange.check_row_nums_base st r w

/-- Summary of one virtual `_inner_process` call: its returned status, the
totals it passed to `_add_filtered_rows` / `_add_merged_rows` (accumulated
into the freshly zeroed counters), and the writer counts it leaves behind. -/
structure InnerOutcome where
  status : Status
  added_filtered : Nat
  added_merged : Nat
  writer : RowsetWriterState
  deriving DecidableEq, Repr

/-- The default `SchemaChange::_inner_process` body: returns
`Status::NotSupported("inner process unsupported.")`, adds nothing to the
counters and leaves the writer untouched. -/
def SchemaChange.inner_process_default (w : RowsetWriterState) : InnerOutcome :=
  ⟨Status.Error ErrorCode.NOT_SUPPORTED "inner process unsupported.", 0, 0, w⟩

/-- `SchemaChange::process`, parameterised over the virtual
`_check_row_nums` in force and the outcome of the virtual
`_inner_process` call:
* if `rowset_reader->rowset()->empty() || rowset_reader->rowset()->num_rows() == 0`,
  flush the writer (`RETURN_IF_ERROR`) and return OK, leaving the counters
  untouched;
* otherwise zero `_filtered_rows` and `_merged_rows`, run `_inner_process`
  (`RETURN_IF_ERROR`), then fail with `ErrorCode::ALTER_STATUS_ERR`
  ("SchemaChange check row nums failed") when `_check_row_nums` is false. -/
def SchemaChange.process
    (check : SCState → RowsetReaderState → RowsetWriterState → Bool)
    (st : SCState) (r : RowsetReaderState) (flush : Status)
    (inner : InnerOutcome) : Status × SCState :=
  if r.rowset_empty || r.rowset_num_rows == 0 then
    match flush with
    | Status.OK => (Status.OK, st)
    | e => (e, st)
  else
    let st1 : SCState := ⟨add64 0 inner.added_filtered, add64 0 inner.added_merged⟩
    match inner.status with
    | Status.OK =>
        if check st1 r inner.writer then (Status.OK, st1)
        else (Status.Error ErrorCode.ALTER_STATUS_ERR "SchemaChange check row nums failed", st1)
    | e => (e, st1)

/-- Result of `SchemaChangeJob::_get_sc_procedure`: which concrete
`SchemaChange` subtype is constructed, with its constructor arguments. -/
inductive SCProcedure where
  | VLocalSchemaChangeWithSorting (changer : BlockChanger) (memory_limitation : Nat)
  | VSchemaChangeDirectly (changer : BlockChanger)
  | LinkedSchemaChange
  deriving DecidableEq, Repr

/-- `SchemaChangeJob::_get_sc_procedure`; `memory_limitation_config` stands
for `config::memory_limitation_per_thread_for_schema_change_bytes`. -/
def SchemaChangeJob.get_sc_procedure (memory_limitation_config : Nat)
    (changer : BlockChanger) (sc_sorting sc_directly : Bool) : SCProcedure :=
  if sc_sorting then
    SCProcedure.VLocalSchemaChangeWithSorting changer memory_limitation_config
  else if sc_directly then
    SCProcedure.VSchemaChangeDirectly changer
  else
    SCProcedure.LinkedSchemaChange

/-- `SchemaChangeJob` member state relevant to admission.  As declared in the
header, `std::shared_mutex _mutex` and
`std::unordered_set<int64_t> _tablet_ids_in_converting` are NON-static data
members: every `SchemaChangeJob` instance (one is constructed per alteration
request) carries its own, initially empty, set. -/
structure SchemaChangeJobState where
  tablet_ids_in_converting : Finset Int
  deriving DecidableEq

/-- A freshly constructed `SchemaChangeJob`: its `_tablet_ids_in_converting`
member starts empty. -/
def SchemaChangeJob.fresh : SchemaChangeJobState := ⟨∅⟩

/-- `SchemaChangeJob::tablet_in_converting`: membership query on the
instance's `_tablet_ids_in_converting` under the read lock. -/
def SchemaChangeJob.tablet_in_converting (st : SchemaChangeJobState)
    (tablet_id : Int) : Bool :=
  tablet_id ∈ st.tablet_ids_in_converting

/-- Modelled from the spec: the admission step of
`SchemaChangeJob::process_alter_tablet`, whose body is not among the
sources.  Under the write lock, check-and-insert the target tablet id into
the job's `_tablet_ids_in_converting`; if already present, fail with a
concurrency-conflict error (try-lock-failed), otherwise insert and
proceed. -/
def SchemaChangeJob.admission (st : SchemaChangeJobState) (tablet_id : Int) :
    Status × SchemaChangeJobState :=
  if tablet_id ∈ st.tablet_ids_in_converting then
    (Status.Error ErrorCode.TRY_LOCK_FAILED
      "failed to process schema change. tablet is already in converting", st)
  else
    (Status.OK, ⟨insert tablet_id st.tablet_ids_in_converting⟩)

/-- Outcome of one whole `process_alter_tablet` call: terminal status, the
job's converting set afterwards, and the tablet state visible to the rest
of the engine afterwards. -/
structure AlterOutcome where
  status : Status
  final_state : SchemaChangeJobState
  visible_tablet : Nat
  deriving DecidableEq

/-- Modelled from the spec: `SchemaChangeJob::process_alter_tablet`, whose
body is not among the sources.  Admission check-and-insert; then the
conversion work (`_do_process_alter_tablet`, abstracted as the status
`do_result`), which publishes the candidate tablet state only on success
and otherwise leaves the base tablet untouched; then the unconditional
release of the tablet id from the converting set, on success and failure
alike. -/
def SchemaChangeJob.process_alter_tablet (st : SchemaChangeJobState)
    (tablet_id : Int) (do_result : Status)
    (base_visible candidate_visible : Nat) : AlterOutcome :=
  match SchemaChangeJob.admission st tablet_id with
  | (Status.OK, st1) =>
      let visible := if do_result = Status.OK then candidate_visible else base_visible
      ⟨do_result, ⟨st1.tablet_ids_in_converting.erase tablet_id⟩, visible⟩
  | (e, st1) => ⟨e, st1, base_visible⟩

/-- Outcome of `LinkedSchemaChange::process`: status, resulting writer
counts, and how many blocks were read from the source. -/
structure LinkedProcessOutcome where
  status : Status
  writer : RowsetWriterState
  blocks_read : Nat
  deriving DecidableEq, Repr

/-- Modelled from the spec: `LinkedSchemaChange::process`, whose body is not
among the sources.  It registers the existing rowset's storage artifacts
under the new tablet without rewriting data: no block is read or
transformed, and the produced rowset's row count equals the source
rowset's row count by construction. -/
def LinkedSchemaChange.process (r : RowsetReaderState) : LinkedProcessOutcome :=
  ⟨Status.OK, ⟨r.rowset_num_rows, 0⟩, 0⟩

/-! Helper lemmas about the `uint64_t` arithmetic and the shape of
`SchemaChange::process`. -/

theorem add64_zero_left (a : Nat) (h : a < U64) : add64 0 a = a := by
  simp only [add64, U64] at *
  omega

theorem sub64_of_le (a b : Nat) (hb : b ≤ a) (ha : a < U64) : sub64 a b = a - b := by
  simp only [sub64, U64] at *
  omega

theorem sub64_of_gt (a b : Nat) (hab : a < b) (hb : b < U64) :
    sub64 a b = U64 - (b - a) := by
  simp only [sub64, U64] at *
  omega

theorem add64_chain (a b c d : Nat) (h : a + b + c + d < U64) :
    add64 (add64 (add64 a b) c) d = a + b + c + d := by
  simp only [add64, U64] at *
  omega

theorem process_empty_eq
    (check : SCState → RowsetReaderState → RowsetWriterState → Bool)
    (st : SCState) (r : RowsetReaderState) (flush : Status) (inner : InnerOutcome)
    (he : r.rowset_empty = true ∨ r.rowset_num_rows = 0) :
    SchemaChange.process check st r flush inner = (flush, st) := by
  have hc : (r.rowset_empty || r.rowset_num_rows == 0) = true := by
    rcases he with h | h <;> simp [h]
  unfold SchemaChange.process
  rw [if_pos hc]
  cases flush <;> rfl

theorem process_nonempty_eq
    (check : SCState → RowsetReaderState → RowsetWriterState → Bool)
    (st : SCState) (r : RowsetReaderState) (flush : Status) (inner : InnerOutcome)
    (hne : r.rowset_empty = false) (hnz : r.rowset_num_rows ≠ 0) :
    SchemaChange.process check st r flush inner =
      match inner.status with
      | Status.OK =>
          if check ⟨add64 0 inner.added_filtered, add64 0 inner.added_merged⟩ r
              inner.writer then
            (Status.OK,
              (⟨add64 0 inner.added_filtered, add64 0 inner.added_merged⟩ : SCState))
          else
            (Status.Error ErrorCode.ALTER_STATUS_ERR "SchemaChange check row nums failed",
              (⟨add64 0 inner.added_filtered, add64 0 inner.added_merged⟩ : SCState))
      | e => (e, (⟨add64 0 inner.added_filtered, add64 0 inner.added_merged⟩ : SCState)) := by
  have hc : (r.rowset_empty || r.rowset_num_rows == 0) = false := by
    simp [hne, hnz]
  unfold SchemaChange.process
  rw [if_neg (by simp [hc])]

theorem check_row_nums_base_no_wrap (st : SCState) (r : RowsetReaderState)
    (w : RowsetWriterState)
    (hle : r.filtered_rows ≤ r.rowset_num_rows) (hr : r.rowset_num_rows < U64)
    (hs : w.num_rows + w.num_rows_filtered + st.merged_rows + st.filtered_rows < U64) :
    SchemaChange.check_row_nums_base st r w =
      ((r.rowset_num_rows - r.filtered_rows) ==
        (w.num_rows + w.num_rows_filtered + st.merged_rows + st.filtered_rows)) := by
  unfold SchemaChange.check_row_nums_base
  rw [sub64_of_le _ _ hle hr, add64_chain _ _ _ _ hs]

theorem process_base_check_conservation
    (st : SCState) (r : RowsetReaderState) (flush : Status) (inner : InnerOutcome)
    (hne : r.rowset_empty = false) (hnz : r.rowset_num_rows ≠ 0)
    (hle : r.filtered_rows ≤ r.rowset_num_rows) (hr : r.rowset_num_rows < U64)
    (hf : inner.added_filtered < U64) (hm : inner.added_merged < U64)
    (hs : inner.writer.num_rows + inner.writer.num_rows_filtered +
        inner.added_merged + inner.added_filtered < U64) :
    ((SchemaChange.process SchemaChange.check_row_nums_base st r flush inner).1 =
        Status.OK →
      r.rowset_num_rows - r.filtered_rows =
        inner.writer.num_rows + inner.writer.num_rows_filtered +
          inner.added_merged + inner.added_filtered) ∧
    (inner.status = Status.OK →
      r.rowset_num_rows - r.filtered_rows ≠
        inner.writer.num_rows + inner.writer.num_rows_filtered +
          inner.added_merged + inner.added_filtered →
      (SchemaChange.process SchemaChange.check_row_nums_base st r flush inner).1 =
        Status.Error ErrorCode.ALTER_STATUS_ERR "SchemaChange check row nums failed") := by
  rw [process_nonempty_eq _ _ _ _ _ hne hnz]
  rw [add64_zero_left _ hf, add64_zero_left _ hm]
  have hcheck :
      SchemaChange.check_row_nums_base ⟨inner.added_filtered, inner.added_merged⟩ r
        inner.writer =
      ((r.rowset_num_rows - r.filtered_rows) ==
        (inner.writer.num_rows + inner.writer.num_rows_filtered +
          inner.added_merged + inner.added_filtered)) :=
    check_row_nums_base_no_wrap ⟨inner.added_filtered, inner.added_merged⟩ r inner.writer
      hle hr hs
  constructor
  · intro hok
    cases hstatus : inner.status with
    | OK =>
        rw [hstatus] at hok
        simp only at hok
        by_cases hb :
            SchemaChange.check_row_nums_base ⟨inner.added_filtered, inner.added_merged⟩ r
              inner.writer = true
        · rw [hcheck] at hb
          exact eq_of_beq hb
        · rw [if_neg hb] at hok
          simp at hok
    | Error code msg =>
        rw [hstatus] at hok
        simp at hok
  · intro hstatus hne2
    rw [hstatus]
    simp only
    rw [if_neg]
    rw [hcheck]
    simp [hne2]

theorem strategy_check_eq_base_of_no_where (c : BlockChanger) (hW : c.has_where = false) :
    VSchemaChangeDirectly.check_row_nums c = SchemaChange.check_row_nums_base ∧
    VBaseSchemaChangeWithSorting.check_row_nums c = SchemaChange.check_row_nums_base := by
  constructor <;>
  · funext s rr w
    simp only [VSchemaChangeDirectly.check_row_nums,
      VBaseSchemaChangeWithSorting.check_row_nums, hW, Bool.false_or]

/-- C1: on a non-empty source rowset with no `where` filter active (so the
direct and sort-based overrides of `_check_row_nums` reduce to the base
check), `SchemaChange::process` returns OK only if
`source_rows - source_filtered_rows ==
 written_rows + writer_filtered_rows + merged_rows + transform_filtered_rows`,
and when the inner processing completed but this identity fails, it returns
the hard `ErrorCode::ALTER_STATUS_ERR` error, never success. -/
theorem C1_row_conservation_no_filter
    (c : BlockChanger) (hW : c.has_where = false)
    (st : SCState) (r : RowsetReaderState) (flush : Status) (inner : InnerOutcome)
    (hne : r.rowset_empty = false) (hnz : r.rowset_num_rows ≠ 0)
    (hle : r.filtered_rows ≤ r.rowset_num_rows) (hr : r.rowset_num_rows < U64)
    (hf : inner.added_filtered < U64) (hm : inner.added_merged < U64)
    (hs : inner.writer.num_rows + inner.writer.num_rows_filtered +
        inner.added_merged + inner.added_filtered < U64) :
    ((SchemaChange.process (VSchemaChangeDirectly.check_row_nums c) st r flush inner).1 =
        Status.OK →
      r.rowset_num_rows - r.filtered_rows =
        inner.writer.num_rows + inner.writer.num_rows_filtered +
          inner.added_merged + inner.added_filtered) ∧
    (inner.status = Status.OK →
      r.rowset_num_rows - r.filtered_rows ≠
        inner.writer.num_rows + inner.writer.num_rows_filtered +
          inner.added_merged + inner.added_filtered →
      (SchemaChange.process (VSchemaChangeDirectly.check_row_nums c) st r flush inner).1 =
        Status.Error ErrorCode.ALTER_STATUS_ERR "SchemaChange check row nums failed") ∧
    ((SchemaChange.process (VBaseSchemaChangeWithSorting.check_row_nums c) st r flush
          inner).1 = Status.OK →
      r.rowset_num_rows - r.filtered_rows =
        inner.writer.num_rows + inner.writer.num_rows_filtered +
          inner.added_merged + inner.added_filtered) ∧
    (inner.status = Status.OK →
      r.rowset_num_rows - r.filtered_rows ≠
        inner.writer.num_rows + inner.writer.num_rows_filtered +
          inner.added_merged + inner.added_filtered →
      (SchemaChange.process (VBaseSchemaChangeWithSorting.check_row_nums c) st r flush
          inner).1 =
        Status.Error ErrorCode.ALTER_STATUS_ERR "SchemaChange check row nums failed") := by
  obtain ⟨hD, hS⟩ := strategy_check_eq_base_of_no_where c hW
  rw [hD, hS]
  obtain ⟨h1, h2⟩ :=
    process_base_check_conservation st r flush inner hne hnz hle hr hf hm hs
  exact ⟨h1, h2, h1, h2⟩

/-- Witness for C1 at a concrete input: a 1000-row source, nothing filtered
anywhere, 1000 rows written; the conversion succeeds and the conservation
identity holds, and at the same input a mismatching write count (600) makes
`process` return the `ALTER_STATUS_ERR` error. -/
theorem C1_row_conservation_no_filter_witness :
    (1000 : Nat) - 0 = 1000 + 0 + 0 + 0 ∧
    (SchemaChange.process
        (VSchemaChangeDirectly.check_row_nums ⟨none, -1⟩) ⟨3, 4⟩
        ⟨false, 1000, 0⟩ Status.OK ⟨Status.OK, 0, 0, ⟨600, 0⟩⟩).1 =
      Status.Error ErrorCode.ALTER_STATUS_ERR "SchemaChange check row nums failed" :=
  ⟨(C1_row_conservation_no_filter ⟨none, -1⟩ (by decide) ⟨3, 4⟩ ⟨false, 1000, 0⟩
      Status.OK ⟨Status.OK, 0, 0, ⟨1000, 0⟩⟩ (by decide) (by decide) (by decide)
      (by decide) (by decide) (by decide) (by decide)).1 (by decide),
   (C1_row_conservation_no_filter ⟨none, -1⟩ (by decide) ⟨3, 4⟩ ⟨false, 1000, 0⟩
      Status.OK ⟨Status.OK, 0, 0, ⟨600, 0⟩⟩ (by decide) (by decide) (by decide)
      (by decide) (by decide) (by decide) (by decide)).2.1 rfl (by decide)⟩

/-- C3: when a `where` predicate is configured (`has_where()` is true), both
the direct and the sort-based `_check_row_nums` overrides return `true`
regardless of the counts, so on a non-empty rowset whose inner processing
succeeded, `process` returns OK and never fails on an accounting
mismatch. -/
theorem C3_filter_waiver
    (c : BlockChanger) (hW : c.has_where = true)
    (st st2 : SCState) (r : RowsetReaderState) (w : RowsetWriterState)
    (flush : Status) (inner : InnerOutcome)
    (hne : r.rowset_empty = false) (hnz : r.rowset_num_rows ≠ 0)
    (hOK : inner.status = Status.OK) :
    VSchemaChangeDirectly.check_row_nums c st r w = true ∧
    VBaseSchemaChangeWithSorting.check_row_nums c st r w = true ∧
    (SchemaChange.process (VSchemaChangeDirectly.check_row_nums c) st2 r flush inner).1 =
      Status.OK ∧
    (SchemaChange.process (VBaseSchemaChangeWithSorting.check_row_nums c) st2 r flush
        inner).1 = Status.OK := by
  have hcD : ∀ s rr ww, VSchemaChangeDirectly.check_row_nums c s rr ww = true := by
    intro s rr ww
    unfold VSchemaChangeDirectly.check_row_nums
    rw [hW, Bool.true_or]
  have hcS : ∀ s rr ww, VBaseSchemaChangeWithSorting.check_row_nums c s rr ww = true := by
    intro s rr ww
    unfold VBaseSchemaChangeWithSorting.check_row_nums
    rw [hW, Bool.true_or]
  refine ⟨hcD _ _ _, hcS _ _ _, ?_, ?_⟩
  · rw [process_nonempty_eq _ _ _ _ _ hne hnz, hOK]
    simp only
    rw [if_pos (hcD _ _ _)]
  · rw [process_nonempty_eq _ _ _ _ _ hne hnz, hOK]
    simp only
    rw [if_pos (hcS _ _ _)]

/-- Witness for C3 at the spec's example: a `where` predicate removes 400 of
1000 source rows, 600 rows are written; the totals are inconsistent for the
conservation check, yet the conversion succeeds. -/
theorem C3_filter_waiver_witness :
    VSchemaChangeDirectly.check_row_nums ⟨some ⟨⟩, -1⟩ ⟨0, 0⟩ ⟨false, 1000, 0⟩
        ⟨600, 0⟩ = true ∧
    VBaseSchemaChangeWithSorting.check_row_nums ⟨some ⟨⟩, -1⟩ ⟨0, 0⟩ ⟨false, 1000, 0⟩
        ⟨600, 0⟩ = true ∧
    (SchemaChange.process (VSchemaChangeDirectly.check_row_nums ⟨some ⟨⟩, -1⟩) ⟨0, 0⟩
        ⟨false, 1000, 0⟩ Status.OK ⟨Status.OK, 0, 0, ⟨600, 0⟩⟩).1 = Status.OK ∧
    (SchemaChange.process (VBaseSchemaChangeWithSorting.check_row_nums ⟨some ⟨⟩, -1⟩)
        ⟨0, 0⟩ ⟨false, 1000, 0⟩ Status.OK ⟨Status.OK, 0, 0, ⟨600, 0⟩⟩).1 = Status.OK :=
  C3_filter_waiver ⟨some ⟨⟩, -1⟩ (by decide) ⟨0, 0⟩ ⟨0, 0⟩ ⟨false, 1000, 0⟩ ⟨600, 0⟩
    Status.OK ⟨Status.OK, 0, 0, ⟨600, 0⟩⟩ (by decide) (by decide) rfl

/-- C4: on a source rowset that is empty or has zero rows,
`SchemaChange::process` flushes the writer and returns OK with the counters
untouched, and its result does not depend on the inner transformation or on
the row-count check at all (neither is invoked). -/
theorem C4_empty_short_circuit
    (check check2 : SCState → RowsetReaderState → RowsetWriterState → Bool)
    (st : SCState) (r : RowsetReaderState) (flush : Status)
    (inner inner2 : InnerOutcome)
    (he : r.rowset_empty = true ∨ r.rowset_num_rows = 0) :
    SchemaChange.process check st r Status.OK inner = (Status.OK, st) ∧
    SchemaChange.process check st r flush inner =
      SchemaChange.process check2 st r flush inner2 := by
  constructor
  · exact process_empty_eq check st r Status.OK inner he
  · rw [process_empty_eq check st r flush inner he,
      process_empty_eq check2 st r flush inner2 he]

/-- Witness for C4 at a concrete input: a zero-row rowset short-circuits to
OK, with two different check functions and inner outcomes giving the same
result. -/
theorem C4_empty_short_circuit_witness :
    SchemaChange.process (fun _ _ _ => true) ⟨7, 9⟩ ⟨true, 0, 0⟩ Status.OK
        ⟨Status.OK, 1, 2, ⟨3, 4⟩⟩ = (Status.OK, ⟨7, 9⟩) ∧
    SchemaChange.process (fun _ _ _ => true) ⟨7, 9⟩ ⟨true, 0, 0⟩ Status.OK
        ⟨Status.OK, 1, 2, ⟨3, 4⟩⟩ =
      SchemaChange.process (fun _ _ _ => false) ⟨7, 9⟩ ⟨true, 0, 0⟩ Status.OK
        ⟨Status.Error ErrorCode.NOT_SUPPORTED "inner process unsupported.", 5, 6,
          ⟨7, 8⟩⟩ :=
  C4_empty_short_circuit (fun _ _ _ => true) (fun _ _ _ => false) ⟨7, 9⟩ ⟨true, 0, 0⟩
    Status.OK ⟨Status.OK, 1, 2, ⟨3, 4⟩⟩
    ⟨Status.Error ErrorCode.NOT_SUPPORTED "inner process unsupported.", 5, 6, ⟨7, 8⟩⟩
    (Or.inl rfl)

/-- C5: `_get_sc_procedure` selection is exclusive and ordered: whenever
`sc_sorting` is true (for either value of `sc_directly`) the local
sort-based strategy is constructed, with the configured
memory-limitation-per-thread byte budget; when `sc_sorting` is false and
`sc_directly` is true the direct strategy is chosen; when both are false
the linked strategy is chosen. -/
theorem C5_strategy_selection (cfg : Nat) (c : BlockChanger) (d : Bool) :
    SchemaChangeJob.get_sc_procedure cfg c true d =
        SCProcedure.VLocalSchemaChangeWithSorting c cfg ∧
    SchemaChangeJob.get_sc_procedure cfg c false true =
        SCProcedure.VSchemaChangeDirectly c ∧
    SchemaChangeJob.get_sc_procedure cfg c false false =
        SCProcedure.LinkedSchemaChange :=
  ⟨rfl, rfl, rfl⟩

/-- C2: evaluation at the failing input.  The header declares `_mutex` and
`_tablet_ids_in_converting` as NON-static data members of `SchemaChangeJob`,
and one job instance is constructed per alteration request; hence while a
first job for tablet 15673 is in flight (its own set holds 15673, and the
same instance would indeed reject a re-entry with the try-lock-failed
error), a second, freshly constructed job instance consults its own empty
set and is admitted with OK instead of failing with the
concurrency-conflict error the claim requires. -/
theorem C2_per_instance_admission_bug :
    (SchemaChangeJob.admission ⟨{15673}⟩ 15673).1 =
        Status.Error ErrorCode.TRY_LOCK_FAILED
          "failed to process schema change. tablet is already in converting" ∧
    SchemaChangeJob.tablet_in_converting ⟨{15673}⟩ 15673 = true ∧
    SchemaChangeJob.fresh.tablet_ids_in_converting = ∅ ∧
    (SchemaChangeJob.admission SchemaChangeJob.fresh 15673).1 = Status.OK ∧
    SchemaChangeJob.tablet_in_converting SchemaChangeJob.fresh 15673 = false := by
  refine ⟨?_, ?_, rfl, ?_, ?_⟩ <;> decide

/-- C6: on every termination of an admitted `SchemaChangeJob` run, whatever
the conversion outcome, the tablet id is removed from the in-converting set
(the release is unconditional), and on failure the visible tablet state is
still the base tablet's. -/
theorem C6_release_unconditional
    (st : SchemaChangeJobState) (tid : Int) (do_result : Status)
    (base cand : Nat) (h : tid ∉ st.tablet_ids_in_converting) :
    (SchemaChangeJob.process_alter_tablet st tid do_result base cand).status =
        do_result ∧
    (SchemaChangeJob.process_alter_tablet st tid do_result base
          cand).final_state.tablet_ids_in_converting = st.tablet_ids_in_converting ∧
    tid ∉ (SchemaChangeJob.process_alter_tablet st tid do_result base
          cand).final_state.tablet_ids_in_converting ∧
    (do_result ≠ Status.OK →
      (SchemaChangeJob.process_alter_tablet st tid do_result base cand).visible_tablet =
        base) := by
  have hrun : SchemaChangeJob.process_alter_tablet st tid do_result base cand =
      ⟨do_result, ⟨(insert tid st.tablet_ids_in_converting).erase tid⟩,
        if do_result = Status.OK then cand else base⟩ := by
    unfold SchemaChangeJob.process_alter_tablet SchemaChangeJob.admission
    rw [if_neg h]
  rw [hrun]
  refine ⟨rfl, ?_, ?_, ?_⟩
  · simp only
    rw [Finset.erase_insert h]
  · simp only
    exact Finset.not_mem_erase tid _
  · intro hfail
    simp only
    rw [if_neg hfail]

/-- Witness for C6 at a concrete input: a failed job on tablet 42 still ends
with 42 out of the converting set and the base tablet state visible. -/
theorem C6_release_unconditional_witness :
    (SchemaChangeJob.process_alter_tablet ⟨∅⟩ 42
          (Status.Error ErrorCode.ALTER_STATUS_ERR "SchemaChange check row nums failed")
          0 1).status =
        Status.Error ErrorCode.ALTER_STATUS_ERR "SchemaChange check row nums failed" ∧
    (SchemaChangeJob.process_alter_tablet ⟨∅⟩ 42
          (Status.Error ErrorCode.ALTER_STATUS_ERR "SchemaChange check row nums failed")
          0 1).final_state.tablet_ids_in_converting =
        (⟨∅⟩ : SchemaChangeJobState).tablet_ids_in_converting ∧
    (42 : Int) ∉ (SchemaChangeJob.process_alter_tablet ⟨∅⟩ 42
          (Status.Error ErrorCode.ALTER_STATUS_ERR "SchemaChange check row nums failed")
          0 1).final_state.tablet_ids_in_converting ∧
    (SchemaChangeJob.process_alter_tablet ⟨∅⟩ 42
          (Status.Error ErrorCode.ALTER_STATUS_ERR "SchemaChange check row nums failed")
          0 1).visible_tablet = 0 := by
  have h := C6_release_unconditional ⟨∅⟩ 42
    (Status.Error ErrorCode.ALTER_STATUS_ERR "SchemaChange check row nums failed") 0 1
    (by decide)
  exact ⟨h.1, h.2.1, h.2.2.1, h.2.2.2 (by decide)⟩

/-- C7: `LinkedSchemaChange::process` succeeds, produces a rowset whose row
count equals the source rowset's, reads no block, and (the source being an
already-converted rowset with nothing reader-filtered) the base row-count
check over its output is trivially satisfied. -/
theorem C7_linked_no_op (r : RowsetReaderState)
    (hf : r.filtered_rows = 0) (hr : r.rowset_num_rows < U64) :
    (LinkedSchemaChange.process r).status = Status.OK ∧
    (LinkedSchemaChange.process r).writer.num_rows = r.rowset_num_rows ∧
    (LinkedSchemaChange.process r).blocks_read = 0 ∧
    SchemaChange.check_row_nums_base ⟨0, 0⟩ r (LinkedSchemaChange.process r).writer =
      true := by
  refine ⟨rfl, rfl, rfl, ?_⟩
  show SchemaChange.check_row_nums_base ⟨0, 0⟩ r ⟨r.rowset_num_rows, 0⟩ = true
  rw [check_row_nums_base_no_wrap ⟨0, 0⟩ r ⟨r.rowset_num_rows, 0⟩ (by omega) hr
      (show r.rowset_num_rows + 0 + 0 + 0 < U64 by omega)]
  simp [hf]

/-- Witness for C7 at a concrete input: a 5-row source rowset is linked
through unchanged and the base row-count check holds. -/
theorem C7_linked_no_op_witness :
    (LinkedSchemaChange.process ⟨false, 5, 0⟩).status = Status.OK ∧
    (LinkedSchemaChange.process ⟨false, 5, 0⟩).writer.num_rows = 5 ∧
    (LinkedSchemaChange.process ⟨false, 5, 0⟩).blocks_read = 0 ∧
    SchemaChange.check_row_nums_base ⟨0, 0⟩ ⟨false, 5, 0⟩
        (LinkedSchemaChange.process ⟨false, 5, 0⟩).writer = true :=
  C7_linked_no_op ⟨false, 5, 0⟩ rfl (by decide)

/-- C8: the default `SchemaChange::_inner_process` returns
`Status::NotSupported("inner process unsupported.")` for every input, so a
strategy that does not override it can never complete a non-empty
conversion: `process` propagates that error. -/
theorem C8_inner_process_default_not_supported
    (w : RowsetWriterState)
    (check : SCState → RowsetReaderState → RowsetWriterState → Bool)
    (st : SCState) (r : RowsetReaderState) (flush : Status)
    (hne : r.rowset_empty = false) (hnz : r.rowset_num_rows ≠ 0) :
    (SchemaChange.inner_process_default w).status =
        Status.Error ErrorCode.NOT_SUPPORTED "inner process unsupported." ∧
    (SchemaChange.process check st r flush (SchemaChange.inner_process_default w)).1 =
        Status.Error ErrorCode.NOT_SUPPORTED "inner process unsupported." := by
  refine ⟨rfl, ?_⟩
  rw [process_nonempty_eq _ _ _ _ _ hne hnz]
  rfl

/-- Witness for C8 at a concrete input: a 5-row source with the default
inner processing fails with the not-supported error. -/
theorem C8_inner_process_default_not_supported_witness :
    (SchemaChange.inner_process_default ⟨0, 0⟩).status =
        Status.Error ErrorCode.NOT_SUPPORTED "inner process unsupported." ∧
    (SchemaChange.process (fun _ _ _ => true) ⟨0, 0⟩ ⟨false, 5, 0⟩ Status.OK
        (SchemaChange.inner_process_default ⟨0, 0⟩)).1 =
        Status.Error ErrorCode.NOT_SUPPORTED "inner process unsupported." :=
  C8_inner_process_default_not_supported ⟨0, 0⟩ (fun _ _ _ => true) ⟨0, 0⟩
    ⟨false, 5, 0⟩ Status.OK (by decide) (by decide)

/-- C9: on a non-empty source rowset, `process` zeroes `_filtered_rows` and
`_merged_rows` before inner processing — the resulting counters are exactly
what the current call accumulated, independent of the counters held before
the call — while on the empty-rowset short-circuit path the counters are
left unchanged; so `filtered_rows()` / `merged_rows()` report the most
recent non-empty conversion only. -/
theorem C9_counters_reset_per_call
    (check : SCState → RowsetReaderState → RowsetWriterState → Bool)
    (st st2 : SCState) (r re : RowsetReaderState)
    (flush : Status) (inner : InnerOutcome)
    (hne : r.rowset_empty = false) (hnz : r.rowset_num_rows ≠ 0)
    (hf : inner.added_filtered < U64) (hm : inner.added_merged < U64)
    (he : re.rowset_empty = true ∨ re.rowset_num_rows = 0) :
    (SchemaChange.process check st r flush inner).2 =
        (SchemaChange.process check st2 r flush inner).2 ∧
    SchemaChange.filtered_rows (SchemaChange.process check st r flush inner).2 =
        inner.added_filtered ∧
    SchemaChange.merged_rows (SchemaChange.process check st r flush inner).2 =
        inner.added_merged ∧
    (SchemaChange.process check st re flush inner).2 = st := by
  have h1 := process_nonempty_eq check st r flush inner hne hnz
  have h2 := process_nonempty_eq check st2 r flush inner hne hnz
  refine ⟨by rw [h1, h2], ?_, ?_, ?_⟩
  · rw [h1]
    cases hstatus : inner.status <;>
      simp [hstatus, apply_ite, SchemaChange.filtered_rows, add64_zero_left _ hf]
  · rw [h1]
    cases hstatus : inner.status <;>
      simp [hstatus, apply_ite, SchemaChange.merged_rows, add64_zero_left _ hm]
  · rw [process_empty_eq check st re flush inner he]

/-- Witness for C9 at concrete inputs: two different prior counter states
give the same post-call counters (3 filtered, 2 merged) on a non-empty
conversion, and an empty-rowset call leaves the prior counters (100, 200)
unchanged. -/
theorem C9_counters_reset_per_call_witness :
    (SchemaChange.process (fun _ _ _ => true) ⟨100, 200⟩ ⟨false, 10, 0⟩ Status.OK
          ⟨Status.OK, 3, 2, ⟨5, 0⟩⟩).2 =
        (SchemaChange.process (fun _ _ _ => true) ⟨0, 0⟩ ⟨false, 10, 0⟩ Status.OK
          ⟨Status.OK, 3, 2, ⟨5, 0⟩⟩).2 ∧
    SchemaChange.filtered_rows
        (SchemaChange.process (fun _ _ _ => true) ⟨100, 200⟩ ⟨false, 10, 0⟩ Status.OK
          ⟨Status.OK, 3, 2, ⟨5, 0⟩⟩).2 = 3 ∧
    SchemaChange.merged_rows
        (SchemaChange.process (fun _ _ _ => true) ⟨100, 200⟩ ⟨false, 10, 0⟩ Status.OK
          ⟨Status.OK, 3, 2, ⟨5, 0⟩⟩).2 = 2 ∧
    (SchemaChange.process (fun _ _ _ => true) ⟨100, 200⟩ ⟨true, 0, 0⟩ Status.OK
          ⟨Status.OK, 3, 2, ⟨5, 0⟩⟩).2 = ⟨100, 200⟩ :=
  C9_counters_reset_per_call (fun _ _ _ => true) ⟨100, 200⟩ ⟨0, 0⟩ ⟨false, 10, 0⟩
    ⟨true, 0, 0⟩ Status.OK ⟨Status.OK, 3, 2, ⟨5, 0⟩⟩ (by decide) (by decide)
    (by decide) (by decide) (Or.inl rfl)

/-- C10: the row-count check runs in unsigned 64-bit arithmetic: when the
reader-filtered count exceeds the source row count, the left-hand side
`source_rows - source_filtered_rows` wraps modulo `2 ^ 64` to
`2 ^ 64 - (source_filtered_rows - source_rows)`, and the check compares
that wrapped value for exact equality against the right-hand sum. -/
theorem C10_check_wraps_unsigned
    (st : SCState) (r : RowsetReaderState) (w : RowsetWriterState)
    (hlt : r.rowset_num_rows < r.filtered_rows) (hb : r.filtered_rows < U64) :
    sub64 r.rowset_num_rows r.filtered_rows =
        U64 - (r.filtered_rows - r.rowset_num_rows) ∧
    (SchemaChange.check_row_nums_base st r w = true ↔
      U64 - (r.filtered_rows - r.rowset_num_rows) =
        add64 (add64 (add64 w.num_rows w.num_rows_filtered) st.merged_rows)
          st.filtered_rows) := by
  have h := sub64_of_gt _ _ hlt hb
  refine ⟨h, ?_⟩
  unfold SchemaChange.check_row_nums_base
  rw [h]
  exact beq_iff_eq

/-- Witness for C10 at a concrete input: 5 source rows with 7
reader-filtered rows make the left-hand side wrap to `2 ^ 64 - 2`. -/
theorem C10_check_wraps_unsigned_witness :
    sub64 5 7 = U64 - 2 ∧
    (SchemaChange.check_row_nums_base ⟨0, 0⟩ ⟨false, 5, 7⟩ ⟨0, 0⟩ = true ↔
      U64 - 2 =
        add64 (add64 (add64 (0 : Nat) 0) 0) 0) :=
  C10_check_wraps_unsigned ⟨0, 0⟩ ⟨false, 5, 7⟩ ⟨0, 0⟩ (by decide) (by decide)

end doris
